import Mathlib

/-!
# go-cable: the FTP control-channel client of `cable.go`

A shallow embedding of `cable.go`.  Go strings are byte strings, modelled as
lists of byte values.  The collaborators from the standard library (`net`,
`bufio`, `log`) are modelled by a `World` that scripts the outcome of every
dial, write and read and that records what the program did to them.  A Go
runtime panic (nil dereference, index or slice bound out of range) is an
explicit outcome.
-/

set_option linter.dupNamespace false

namespace Cable

/-! ## Byte strings -/

/-- Go `string`: a sequence of bytes. -/
abbrev Str := List Nat

/-- Bytes of an ASCII literal of the source (one byte per character). -/
def ascii (s : String) : Str := s.toList.map Char.toNat

/-- Constant `CRLF = "\r\n"`. -/
def CRLF : Str := [13, 10]

/-! ## `strconv.Atoi`, `strings.Split`, `regexp` (standard library, 64-bit `int`) -/

/-- The `Err` field of a `*strconv.NumError`. -/
inductive NumError where
  | errSyntax
  | errRange
  deriving DecidableEq, Repr

/-- An ASCII decimal digit, `'0'` to `'9'`. -/
def isDigit (b : Nat) : Bool := decide (48 ≤ b) && decide (b ≤ 57)

/-- The digit loop of `strconv`: `n = n*10 + (ch - '0')`, failing on the first
byte that is not a decimal digit. -/
def parseDigits : Str → Nat → Option Nat
  | [], n => some n
  | ch :: rest, n => if isDigit ch then parseDigits rest (n * 10 + (ch - 48)) else none

/-- Function `strconv.Atoi` for a 64-bit `int`: an optional sign, then decimal
digits.  On a syntax error the value is 0; on a range error it is the nearest
bound.  The value is returned together with the error, as in Go. -/
def Atoi (s : Str) : Int × Option NumError :=
  match s with
  | [] => (0, some .errSyntax)
  | c :: rest =>
    let body := if c = 45 ∨ c = 43 then rest else s
    if body.length < 1 then (0, some .errSyntax)
    else
      match parseDigits body 0 with
      | none => (0, some .errSyntax)
      | some un =>
        if c = 45 then
          if un > 2 ^ 63 then (-(2 ^ 63 : Int), some .errRange) else (-(un : Int), none)
        else
          if un ≥ 2 ^ 63 then ((2 ^ 63 : Int) - 1, some .errRange) else ((un : Int), none)

/-- Function `strings.Split(s, sep)` for a one-byte separator: the pieces
between the separators; never an empty list. -/
def Split (sep : Nat) : Str → List Str
  | [] => [[]]
  | c :: cs =>
    if c = sep then [] :: Split sep cs
    else
      match Split sep cs with
      | [] => [[c]]
      | piece :: pieces => (c :: piece) :: pieces

/-- The part of `s` before its first line feed: what `.*` can run over. -/
def lineSeg (s : Str) : Str := s.takeWhile (fun b => b ≠ 10)

/-- The text before the last `)` of `seg`, if `seg` has one: what the greedy
group `(.*)` captures when it is followed by `\)`. -/
def beforeLastClose : Str → Option Str
  | [] => none
  | c :: cs =>
    match beforeLastClose cs with
    | some g => some (c :: g)
    | none => if c = 41 then some [] else none

/-- Scan of the pattern `\((.*)\)` over the input, after skipping `skip` bytes
that belong to the previous match: at the leftmost `(` that has a `)` later
on its line, capture up to the last such `)`. -/
def findAllFrom : Nat → Str → List Str
  | _, [] => []
  | skip + 1, _ :: cs => findAllFrom skip cs
  | 0, c :: cs =>
    if c = 40 then
      match beforeLastClose (lineSeg cs) with
      | some g => g :: findAllFrom (g.length + 1) cs
      | none => findAllFrom 0 cs
    else findAllFrom 0 cs

/-- Call `re.FindAllStringSubmatch(s, -1)` for `re = \((.*)\)`: for each
successive non-overlapping match, its capture group 1 (element `[i][1]`). -/
def FindAllStringSubmatch (s : Str) : List Str := findAllFrom 0 s

/-- Go `int` arithmetic: wrap an integer into the signed 64-bit range. -/
def wrapInt (i : Int) : Int := (i + 2 ^ 63) % 2 ^ 64 - 2 ^ 63

/-! ## Errors, the world, the session -/

/-- Go `error` values seen by the client. -/
inductive Err where
  /-- Value `errors.New("No Connection open.")` of `send`. -/
  | noConnection
  /-- An error returned by `net` or `bufio`, identified by a number. -/
  | io (e : Nat)
  deriving DecidableEq, Repr

/-- What the program did to its collaborators. -/
inductive Event where
  | dial (addr : Str)
  | write (c : Nat) (bytes : Str)
  | flush (c : Nat)
  | read (c : Nat)
  | close (c : Nat)
  deriving DecidableEq, Repr

/-- Result of one `reader.ReadString('\n')`. -/
inductive ReadResult where
  | line (reply : Str)
  | fail (e : Nat)
  deriving DecidableEq, Repr

/-- The environment: scripted outcomes of the successive `net.Dial`,
`writer.WriteString` and `reader.ReadString` calls (`none` is success), the
number of connections dialled so far, the trace of calls made, and the lines
sent to `log.Printf` (code and message). -/
structure World where
  dials : List (Option Nat)
  writes : List (Option Nat)
  reads : List ReadResult
  nextConn : Nat
  trace : List Event
  logs : List (Int × Str)
  deriving DecidableEq, Repr

/-- Type `FTP`.  A connection is identified by its dial number; `none` is `nil`.
The reader and the writer carry the number of the connection they wrap. -/
structure FTP where
  debug : Bool
  addr : Str
  conn : Option Nat
  isLogged : Bool
  passPort : Int
  reader : Option Nat
  writer : Option Nat
  deriving DecidableEq, Repr

/-- Type `message`. -/
structure message where
  code : Int
  message : Str
  deriving DecidableEq, Repr

/-- The session together with its environment. -/
structure State where
  ftp : FTP
  world : World
  deriving DecidableEq, Repr

/-- How a call ends: it returns a value, or the goroutine panics. -/
inductive Outcome (α : Type) where
  | ret (val : α) (st : State)
  | panic (st : State)
  deriving DecidableEq, Repr

/-- Call `net.Dial("tcp", addr)`: the next scripted outcome (success when the
script is exhausted); a successful dial yields a fresh connection number. -/
def World.Dial (w : World) (addr : Str) : Option Nat × Option Nat × World :=
  match w.dials.headD none with
  | some e =>
    (none, some e, { w with dials := w.dials.tail, trace := w.trace ++ [.dial addr] })
  | none =>
    (some w.nextConn, none,
      { w with dials := w.dials.tail, nextConn := w.nextConn + 1,
               trace := w.trace ++ [.dial addr] })

/-- Call `writer.WriteString(bytes)`: the next scripted outcome (success when
the script is exhausted). -/
def World.WriteString (w : World) (c : Nat) (bytes : Str) : Option Nat × World :=
  (w.writes.headD none,
    { w with writes := w.writes.tail, trace := w.trace ++ [.write c bytes] })

/-- Call `writer.Flush()`; its result is not looked at by the program. -/
def World.Flush (w : World) (c : Nat) : World :=
  { w with trace := w.trace ++ [.flush c] }

/-- Call `reader.ReadString('\n')`: the next scripted outcome (an error when
the script is exhausted). -/
def World.ReadString (w : World) (c : Nat) : ReadResult × World :=
  (w.reads.headD (.fail 0),
    { w with reads := w.reads.tail, trace := w.trace ++ [.read c] })

/-- Call `conn.Close()`. -/
def World.Close (w : World) (c : Nat) : World :=
  { w with trace := w.trace ++ [.close c] }

/-- Call `log.Printf("Code: %d Message: %s", code, msg)`. -/
def World.Printf (w : World) (code : Int) (msg : Str) : World :=
  { w with logs := w.logs ++ [(code, msg)] }

/-! ## The functions of `cable.go` -/

/-- Function `New`: all fields at their zero values. -/
def New : FTP :=
  { debug := false, addr := [], conn := none, isLogged := false, passPort := 0,
    reader := none, writer := none }

/-- Method `Debug`. -/
def Debug (debug : Bool) (st : State) : State :=
  { st with ftp := { st.ftp with debug := debug } }

/-- Method `send`: the guard on the writer, then `WriteString(cmd + CRLF)` and
`Flush`. -/
def send (cmd : Str) (st : State) : Option Err × State :=
  match st.ftp.writer with
  | none => (some .noConnection, st)
  | some wr =>
    match st.world.WriteString wr (cmd ++ CRLF) with
    | (some e, w1) => (some (.io e), { st with world := w1 })
    | (none, w1) => (none, { st with world := w1.Flush wr })

/-- Method `receive`: one `ReadString('\n')`; then `reply[:3]` through `Atoi`
with its error dropped, and `reply[4:]`.  A nil reader and a slice bound
beyond the length of the reply are panics. -/
def receive (st : State) : Outcome (message × Option Err) :=
  match st.ftp.reader with
  | none => .panic st
  | some rd =>
    match st.world.ReadString rd with
    | (.fail e, w1) =>
      .ret ({ code := 0, message := [] }, some (.io e)) { st with world := w1 }
    | (.line reply, w1) =>
      if reply.length < 3 then .panic { st with world := w1 }
      else
        let code := (Atoi (reply.take 3)).1
        if reply.length < 4 then .panic { st with world := w1 }
        else
          let msg := reply.drop 4
          let w2 := if st.ftp.debug then w1.Printf code msg else w1
          .ret ({ code := code, message := msg }, none) { st with world := w2 }

/-- Method `Connect`: dial, wrap the connection in a writer and a reader, read
the greeting. -/
def Connect (addr : Str) (st : State) : Outcome (Option Err) :=
  match st.world.Dial addr with
  | (conn, some e, w1) =>
    .ret (some (.io e)) { ftp := { st.ftp with conn := conn }, world := w1 }
  | (conn, none, w1) =>
    let st1 : State :=
      { ftp := { st.ftp with conn := conn, addr := addr, writer := conn, reader := conn },
        world := w1 }
    match receive st1 with
    | .panic st2 => .panic st2
    | .ret (_, some e) st2 => .ret (some e) st2
    | .ret (_, none) st2 => .ret none st2

/-- Method `Close`: closes the connection if one is held and forgets it; the
reader and the writer are left as they are. -/
def Close (st : State) : State :=
  match st.ftp.conn with
  | some c => { ftp := { st.ftp with conn := none }, world := st.world.Close c }
  | none => st

/-- Method `user`. -/
def user (user : Str) (st : State) : Outcome (Option Err) :=
  let user := if user.length = 0 then ascii "anonymous" else user
  match send (ascii "USER " ++ user) st with
  | (some e, st1) => .ret (some e) st1
  | (none, st1) =>
    match receive st1 with
    | .panic st2 => .panic st2
    | .ret (_, some e) st2 => .ret (some e) st2
    | .ret (_, none) st2 => .ret none st2

/-- Method `pass`. -/
def pass (password : Str) (st : State) : Outcome (Option Err) :=
  let password := if password.length = 0 then ascii "" else password
  match send (ascii "PASS " ++ password) st with
  | (some e, st1) => .ret (some e) st1
  | (none, st1) =>
    match receive st1 with
    | .panic st2 => .panic st2
    | .ret (_, some e) st2 => .ret (some e) st2
    | .ret (_, none) st2 => .ret none st2

/-- Method `Login`: `user`, then `pass`, then `isLogged = true`. -/
def Login (user_ : Str) (password : Str) (st : State) : Outcome (Option Err) :=
  match user user_ st with
  | .panic st1 => .panic st1
  | .ret (some e) st1 => .ret (some e) st1
  | .ret none st1 =>
    match pass password st1 with
    | .panic st2 => .panic st2
    | .ret (some e) st2 => .ret (some e) st2
    | .ret none st2 => .ret none { st2 with ftp := { st2.ftp with isLogged := true } }

/-- The statements of `Quit` after its `defer`. -/
def QuitBody (st : State) : Outcome (Option Err) :=
  match send (ascii "QUIT") st with
  | (some e, st1) => .ret (some e) st1
  | (none, st1) =>
    match receive st1 with
    | .panic st2 => .panic st2
    | .ret (_, some e) st2 => .ret (some e) st2
    | .ret (_, none) st2 => .ret none st2

/-- Method `Quit`: `defer ftp.Close()` runs when the body returns and also
when it panics. -/
def Quit (st : State) : Outcome (Option Err) :=
  match QuitBody st with
  | .ret err st1 => .ret err (Close st1)
  | .panic st1 => .panic (Close st1)

/-- Method `Pasv`: after the round trip, the first match of `\((.*)\)` in the
message, split at the commas; the last two pieces through `Atoi` with the
errors dropped; `passPort = l1<<8 + l2`.  Indexing an empty match list
(`res[0]`) or before the start of the pieces (`s[len(s)-2]`) is a panic. -/
def Pasv (st : State) : Outcome (Option Err) :=
  match send (ascii "PASV") st with
  | (some e, st1) => .ret (some e) st1
  | (none, st1) =>
    match receive st1 with
    | .panic st2 => .panic st2
    | .ret (_, some e) st2 => .ret (some e) st2
    | .ret (msg, none) st2 =>
      match FindAllStringSubmatch msg.message with
      | [] => .panic st2
      | group :: _ =>
        let s := Split 44 group
        if s.length < 2 then .panic st2
        else
          let l1 := (Atoi (s.getD (s.length - 2) [])).1
          let l2 := (Atoi (s.getD (s.length - 1) [])).1
          .ret none
            { st2 with ftp := { st2.ftp with passPort := wrapInt (wrapInt (l1 * 2 ^ 8) + l2) } }

/-- Method `Pwd`. -/
def Pwd (st : State) : Outcome (Option Err) :=
  match send (ascii "PWD") st with
  | (some e, st1) => .ret (some e) st1
  | (none, st1) =>
    match receive st1 with
    | .panic st2 => .panic st2
    | .ret (_, some e) st2 => .ret (some e) st2
    | .ret (_, none) st2 => .ret none st2

/-- Method `Cwd`: the command handed to `send` already ends in `CRLF`. -/
def Cwd (pathname : Str) (st : State) : Outcome (Option Err) :=
  match send (ascii "CWD " ++ pathname ++ CRLF) st with
  | (some e, st1) => .ret (some e) st1
  | (none, st1) =>
    match receive st1 with
    | .panic st2 => .panic st2
    | .ret (_, some e) st2 => .ret (some e) st2
    | .ret (_, none) st2 => .ret none st2

/-! ## Reading results and traces -/

/-- The state in which a call ended, returned or panicked. -/
def Outcome.state {α : Type} : Outcome α → State
  | .ret _ st => st
  | .panic st => st

/-- The value a call returned; `none` when it panicked. -/
def Outcome.val? {α : Type} : Outcome α → Option α
  | .ret v _ => some v
  | .panic _ => none

/-- Number of `conn.Close()` calls in a trace. -/
def closeCount (t : List Event) : Nat :=
  (t.filter (fun ev => match ev with | .close _ => true | _ => false)).length

/-- The byte strings handed to `WriteString`, in order. -/
def written : List Event → List Str
  | [] => []
  | .write _ bytes :: t => bytes :: written t
  | _ :: t => written t

/-- A world with the given scripts in which nothing has happened yet. -/
def World.init (dials writes : List (Option Nat)) (reads : List ReadResult) : World :=
  { dials := dials, writes := writes, reads := reads, nextConn := 0, trace := [], logs := [] }

/-- A fresh session (`New()`) in the given world. -/
def State.fresh (w : World) : State := { ftp := New, world := w }

/-- A session holding connection 0 with its reader and writer, as `Connect`
leaves it, facing the given scripts. -/
def State.connected (writes : List (Option Nat)) (reads : List ReadResult) : State :=
  { ftp := { New with conn := some 0, reader := some 0, writer := some 0 },
    world := { World.init [] writes reads with nextConn := 1 } }

/-- Value of a decimal numeral: its digits read in base ten. -/
def decVal (ds : Str) : Nat := ds.foldl (fun n ch => n * 10 + (ch - 48)) 0

/-- A decimal field: one or more ASCII decimal digits. -/
def isDecimal (f : Str) : Bool := !f.isEmpty && f.all isDigit

/-! ## Lemmas on the library functions -/

theorem parseDigits_digits (ds : Str) (n : Nat) (h : ∀ b ∈ ds, isDigit b = true) :
    parseDigits ds n = some (ds.foldl (fun n ch => n * 10 + (ch - 48)) n) := by
  induction ds generalizing n with
  | nil => rfl
  | cons c cs ih =>
    have hc : isDigit c = true := h c (List.mem_cons_self _ _)
    have hcs : ∀ b ∈ cs, isDigit b = true := fun b hb => h b (List.mem_cons_of_mem _ hb)
    simp only [parseDigits, hc, if_true, List.foldl_cons]
    exact ih _ hcs

theorem isDecimal_iff (f : Str) :
    isDecimal f = true ↔ f ≠ [] ∧ ∀ b ∈ f, isDigit b = true := by
  cases f with
  | nil => simp [isDecimal]
  | cons c cs => simp [isDecimal, List.all_eq_true]

/-- On a decimal field whose value fits a 64-bit `int`, `Atoi` returns that
value and no error. -/
theorem Atoi_decimal (ds : Str) (h : isDecimal ds = true) (hlt : decVal ds < 2 ^ 63) :
    Atoi ds = ((decVal ds : Int), none) := by
  obtain ⟨hne, hd⟩ := (isDecimal_iff ds).1 h
  cases ds with
  | nil => exact absurd rfl hne
  | cons c cs =>
    have hc : isDigit c = true := hd c (List.mem_cons_self _ _)
    simp only [isDigit, Bool.and_eq_true, decide_eq_true_eq] at hc
    have e1 : ¬ (c = 45 ∨ c = 43) := by omega
    have e45 : ¬ c = 45 := by omega
    have hlen : ¬ (c :: cs).length < 1 := by simp
    have hge : ¬ decVal (c :: cs) ≥ 2 ^ 63 := by omega
    have hp : parseDigits (c :: cs) 0 = some (decVal (c :: cs)) :=
      parseDigits_digits (c :: cs) 0 hd
    unfold Atoi
    simp only [if_neg e1, if_neg hlen, hp, if_neg e45]
    rw [if_neg hge]

theorem Split_ne_nil (sep : Nat) (s : Str) : Split sep s ≠ [] := by
  cases s with
  | nil => simp [Split]
  | cons c cs =>
    unfold Split
    by_cases hc : c = sep
    · simp [hc]
    · rw [if_neg hc]
      cases Split sep cs <;> simp

/-- Splitting around one separator: the pieces of the left part, then the
pieces of the right part. -/
theorem Split_append_sep (sep : Nat) (a b : Str) :
    Split sep (a ++ sep :: b) = Split sep a ++ Split sep b := by
  induction a with
  | nil => simp [Split]
  | cons c cs ih =>
    by_cases hc : c = sep
    · simp only [List.cons_append, Split, hc, if_true, List.append_eq, ih]
    · simp only [List.cons_append, Split, if_neg hc, List.append_eq, ih]
      have hne := Split_ne_nil sep cs
      cases hs : Split sep cs with
      | nil => exact absurd hs hne
      | cons p ps => simp

theorem Split_no_sep (sep : Nat) (d : Str) (h : sep ∉ d) : Split sep d = [d] := by
  induction d with
  | nil => rfl
  | cons c cs ih =>
    have hc : ¬ c = sep := fun e => h (e ▸ List.mem_cons_self _ _)
    have hcs : sep ∉ cs := fun m => h (List.mem_cons_of_mem _ m)
    simp only [Split, if_neg hc, ih hcs]

theorem beforeLastClose_none (post : Str) (h : 41 ∉ post) : beforeLastClose post = none := by
  induction post with
  | nil => rfl
  | cons c cs ih =>
    have hc : ¬ c = 41 := fun e => h (e ▸ List.mem_cons_self _ _)
    have hcs : 41 ∉ cs := fun m => h (List.mem_cons_of_mem _ m)
    simp only [beforeLastClose, ih hcs, if_neg hc]

/-- The greedy group stops at the last `)`. -/
theorem beforeLastClose_append (g post : Str) (h : 41 ∉ post) :
    beforeLastClose (g ++ 41 :: post) = some g := by
  induction g with
  | nil => simp [beforeLastClose, beforeLastClose_none post h]
  | cons c cs ih => simp only [List.cons_append, beforeLastClose, List.append_eq, ih]

theorem lineSeg_append (g r : Str) (h : 10 ∉ g) : lineSeg (g ++ r) = g ++ lineSeg r := by
  induction g with
  | nil => rfl
  | cons c cs ih =>
    have hc : c ≠ 10 := fun e => h (e ▸ List.mem_cons_self _ _)
    have hcs : 10 ∉ cs := fun m => h (List.mem_cons_of_mem _ m)
    have ih2 := ih hcs
    simp only [lineSeg] at ih2 ⊢
    simp only [List.cons_append, List.takeWhile_cons, hc, ne_eq, not_false_eq_true,
      decide_True, if_true, ih2]

theorem not_mem_lineSeg (b : Nat) (r : Str) (h : b ∉ r) : b ∉ lineSeg r :=
  fun m => h ((List.takeWhile_sublist _).subset m)

/-- The first match of `\((.*)\)` on a line: when a `(`, a text `t` without
line feed and a `)` followed by no further `)` come after a prefix without
line feed, the first captured group ends with `t`. -/
theorem FindAllStringSubmatch_head (pre t r : Str)
    (hpre : 10 ∉ pre) (ht : 10 ∉ t) (hr : 41 ∉ r) :
    ∃ g rest, FindAllStringSubmatch (pre ++ 40 :: (t ++ 41 :: r)) = (g ++ t) :: rest := by
  unfold FindAllStringSubmatch
  induction pre with
  | nil =>
    have hseg : beforeLastClose (lineSeg (t ++ 41 :: r)) = some t := by
      rw [lineSeg_append t _ ht]
      have : lineSeg (41 :: r) = 41 :: lineSeg r := by
        simp [lineSeg, List.takeWhile_cons]
      rw [this]
      exact beforeLastClose_append t _ (not_mem_lineSeg 41 r hr)
    have hm : findAllFrom 0 ([] ++ 40 :: (t ++ 41 :: r)) =
        ([] ++ t) :: findAllFrom (t.length + 1) (t ++ 41 :: r) := by
      simp only [List.nil_append, findAllFrom, if_true, hseg]
    exact ⟨[], _, hm⟩
  | cons c cs ih =>
    have hcs : 10 ∉ cs := fun m => hpre (List.mem_cons_of_mem _ m)
    by_cases hc : c = 40
    · have h10 : 10 ∉ cs ++ 40 :: t := by
        simp only [List.mem_append, List.mem_cons, not_or]
        exact ⟨hcs, by decide, ht⟩
      have hseg : beforeLastClose (lineSeg (cs ++ 40 :: (t ++ 41 :: r))) =
          some (cs ++ 40 :: t) := by
        have e : cs ++ 40 :: (t ++ 41 :: r) = (cs ++ 40 :: t) ++ 41 :: r := by simp
        rw [e, lineSeg_append _ _ h10]
        have : lineSeg (41 :: r) = 41 :: lineSeg r := by
          simp [lineSeg, List.takeWhile_cons]
        rw [this]
        exact beforeLastClose_append _ _ (not_mem_lineSeg 41 r hr)
      have hm : findAllFrom 0 ((c :: cs) ++ 40 :: (t ++ 41 :: r)) =
          ((cs ++ [40]) ++ t) ::
            findAllFrom ((cs ++ 40 :: t).length + 1) (cs ++ 40 :: (t ++ 41 :: r)) := by
        simp only [List.cons_append, findAllFrom, hc, if_true, List.append_eq, hseg,
          List.append_assoc, List.singleton_append, List.nil_append]
      exact ⟨_, _, hm⟩
    · obtain ⟨g, rest, hg⟩ := ih hcs
      exact ⟨g, rest, by simp only [List.cons_append, findAllFrom, if_neg hc, List.append_eq, hg]⟩

/-- Go `int` arithmetic does not wrap on `l1<<8 + l2` while the sum fits. -/
theorem wrapInt_port (a b : Nat) (h : a * 256 + b < 2 ^ 63) :
    wrapInt (wrapInt ((a : Int) * 2 ^ 8) + (b : Int)) = ((a * 256 + b : Nat) : Int) := by
  unfold wrapInt
  norm_num at h ⊢
  omega

theorem not_mem_of_isDecimal (f : Str) (b : Nat) (hf : isDecimal f = true)
    (hb : isDigit b = false) : b ∉ f := by
  intro m
  have := ((isDecimal_iff f).1 hf).2 b m
  rw [hb] at this
  exact Bool.noConfusion this

/-- The last two pieces of a comma-separated text that ends in `,p1,p2`. -/
theorem Split_tuple_tail (g x p1 p2 : Str) (h1 : 44 ∉ p1) (h2 : 44 ∉ p2) :
    ∃ L, Split 44 (g ++ (x ++ 44 :: (p1 ++ 44 :: p2))) = L ++ [p1, p2] := by
  refine ⟨Split 44 (g ++ x), ?_⟩
  have e : g ++ (x ++ 44 :: (p1 ++ 44 :: p2)) = (g ++ x) ++ 44 :: (p1 ++ 44 :: p2) := by simp
  rw [e, Split_append_sep, Split_append_sep, Split_no_sep 44 p1 h1, Split_no_sep 44 p2 h2]
  rfl

/-- A `send` on a session with a writer whose write succeeds. -/
theorem send_ok (cmd : Str) (st : State) (wr : Nat) (hwr : st.ftp.writer = some wr)
    (hwrite : st.world.writes.headD none = none) :
    send cmd st =
      (none, { st with world := (st.world.WriteString wr (cmd ++ CRLF)).2.Flush wr }) := by
  simp only [send, hwr, World.WriteString, hwrite]

/-- A `receive` on a session with a reader that delivers a line of at least
four bytes. -/
theorem receive_line (st : State) (rd : Nat) (reply : Str) (hrd : st.ftp.reader = some rd)
    (hline : st.world.reads.headD (.fail 0) = .line reply) (hlen : 4 ≤ reply.length) :
    receive st =
      .ret ({ code := (Atoi (reply.take 3)).1, message := reply.drop 4 }, none)
        { st with world :=
            if st.ftp.debug then
              (st.world.ReadString rd).2.Printf (Atoi (reply.take 3)).1 (reply.drop 4)
            else (st.world.ReadString rd).2 } := by
  have l3 : ¬ reply.length < 3 := by omega
  have l4 : ¬ reply.length < 4 := by omega
  unfold receive
  simp only [hrd, World.ReadString, hline]
  rw [if_neg l3]
  simp only [if_neg l4]

/-! ## The reply parser -/

/-- C1 (as amended): for every reply line made of three ASCII decimal digits,
one separator byte, a text and the line terminator, `receive` returns without
error a reply whose code is the number written by the three digits and whose
message is the text followed by the line terminator. -/
theorem receive_valid_line (st : State) (rd d1 d2 d3 sep : Nat) (text : Str)
    (hrd : st.ftp.reader = some rd)
    (h1 : isDigit d1 = true) (h2 : isDigit d2 = true) (h3 : isDigit d3 = true)
    (hline : st.world.reads.headD (.fail 0) = .line (d1 :: d2 :: d3 :: sep :: (text ++ [10]))) :
    (receive st).val? =
      some ({ code := (((d1 - 48) * 100 + (d2 - 48) * 10 + (d3 - 48) : Nat) : Int),
              message := text ++ [10] }, none) := by
  have hdec : isDecimal [d1, d2, d3] = true := by
    simp [isDecimal, h1, h2, h3]
  have hval : decVal [d1, d2, d3] = (d1 - 48) * 100 + (d2 - 48) * 10 + (d3 - 48) := by
    simp only [decVal, List.foldl_cons, List.foldl_nil]
    omega
  have hlt : decVal [d1, d2, d3] < 2 ^ 63 := by
    simp only [isDigit, Bool.and_eq_true, decide_eq_true_eq] at h1 h2 h3
    rw [hval]
    norm_num
    omega
  have hA := Atoi_decimal [d1, d2, d3] hdec hlt
  rw [hval] at hA
  have l3 : ¬ (d1 :: d2 :: d3 :: sep :: (text ++ [10])).length < 3 := by
    simp only [List.length_cons]
    omega
  have l4 : ¬ (d1 :: d2 :: d3 :: sep :: (text ++ [10])).length < 4 := by
    simp only [List.length_cons]
    omega
  unfold receive
  simp only [hrd, World.ReadString, hline]
  rw [if_neg l3]
  simp only [if_neg l4, List.take, List.drop, hA, Outcome.val?]

/-- Witness for `receive_valid_line`: the greeting `"220 Welcome\n"`. -/
theorem receive_valid_line_witness :
    (receive (State.connected [] [.line (ascii "220 Welcome\n")])).val? =
      some ({ code := 220, message := ascii "Welcome\n" }, none) :=
  receive_valid_line (State.connected [] [.line (ascii "220 Welcome\n")]) 0 50 50 48 32
    (ascii "Welcome") rfl (by decide) (by decide) (by decide) (by decide)

/-- C1 (counterexample): for the line `"220 Welcome\n"` the message returned
is `"Welcome\n"`, terminator included, and not the text `"Welcome"`. -/
theorem receive_message_keeps_terminator :
    (receive (State.connected [] [.line (ascii "220 Welcome\n")])).val? =
        some ({ code := 220, message := ascii "Welcome\n" }, none) ∧
      (receive (State.connected [] [.line (ascii "220 Welcome\n")])).val? ≠
        some ({ code := 220, message := ascii "Welcome" }, none) := by
  decide

/-- C2 (code at the failing input): for the line `"abc hello\n"`, whose first
three bytes are not digits, `receive` returns a reply with code 0 and no
error. -/
theorem receive_non_digits_code_zero :
    (receive (State.connected [] [.line (ascii "abc hello\n")])).val? =
      some ({ code := 0, message := ascii "hello\n" }, none) := by
  decide

/-- C10 (code at the failing inputs): on the lines `"\n"` and `"22\n"`
delivered by the reader, `receive` panics on a slice bound instead of
returning a reply or an error. -/
theorem receive_short_line_panics :
    (receive (State.connected [] [.line (ascii "\n")])).val? = none ∧
      (receive (State.connected [] [.line (ascii "22\n")])).val? = none := by
  decide

/-! ## Passive mode -/

/-- C3 (as amended): for every PASV reply line (its only line feed at the end)
whose message contains a parenthesised tuple of six comma-separated decimal
fields, with no `)` after the one that closes the tuple and with
`p1 * 256 + p2` below `2^63`, `Pasv` returns no error and records the port
`p1 * 256 + p2` on the session. -/
theorem Pasv_records_port (st : State) (wr rd : Nat)
    (head pre post h1 h2 h3 h4 p1 p2 : Str)
    (hwr : st.ftp.writer = some wr) (hrd : st.ftp.reader = some rd)
    (hwrite : st.world.writes.headD none = none)
    (hhead : head.length = 4) (hpre : 10 ∉ pre) (hpost : 41 ∉ post)
    (hh1 : isDecimal h1 = true) (hh2 : isDecimal h2 = true) (hh3 : isDecimal h3 = true)
    (hh4 : isDecimal h4 = true) (hp1 : isDecimal p1 = true) (hp2 : isDecimal p2 = true)
    (hfit : decVal p1 * 256 + decVal p2 < 2 ^ 63)
    (hline : st.world.reads.headD (.fail 0) =
      .line (head ++ (pre ++ 40 ::
        ((h1 ++ 44 :: (h2 ++ 44 :: (h3 ++ 44 :: (h4 ++ 44 :: (p1 ++ 44 :: p2))))) ++
          41 :: (post ++ [10]))))) :
    (Pasv st).val? = some none ∧
      (Pasv st).state.ftp.passPort = ((decVal p1 * 256 + decVal p2 : Nat) : Int) := by
  have n10 : ∀ f : Str, isDecimal f = true → 10 ∉ f :=
    fun f hf => not_mem_of_isDecimal f 10 hf (by decide)
  have n44 : ∀ f : Str, isDecimal f = true → 44 ∉ f :=
    fun f hf => not_mem_of_isDecimal f 44 hf (by decide)
  have ht : 10 ∉ h1 ++ 44 :: (h2 ++ 44 :: (h3 ++ 44 :: (h4 ++ 44 :: (p1 ++ 44 :: p2)))) := by
    simp only [List.mem_append, List.mem_cons, not_or]
    exact ⟨n10 h1 hh1, by decide, n10 h2 hh2, by decide, n10 h3 hh3, by decide, n10 h4 hh4,
      by decide, n10 p1 hp1, by decide, n10 p2 hp2⟩
  have hr : 41 ∉ post ++ [10] := by
    simp only [List.mem_append, List.mem_singleton, not_or]
    exact ⟨hpost, by decide⟩
  obtain ⟨g, rest, hg⟩ := FindAllStringSubmatch_head pre _ _ hpre ht hr
  obtain ⟨L, hL⟩ := Split_tuple_tail g (h1 ++ 44 :: (h2 ++ 44 :: (h3 ++ 44 :: h4))) p1 p2
    (n44 p1 hp1) (n44 p2 hp2)
  have hL2 : Split 44 (g ++ (h1 ++ 44 :: (h2 ++ 44 :: (h3 ++ 44 :: (h4 ++ 44 :: (p1 ++ 44 :: p2))))))
      = L ++ [p1, p2] := by
    rw [← hL]
    simp
  have hlen : 4 ≤ (head ++ (pre ++ 40 ::
        ((h1 ++ 44 :: (h2 ++ 44 :: (h3 ++ 44 :: (h4 ++ 44 :: (p1 ++ 44 :: p2))))) ++
          41 :: (post ++ [10])))).length := by
    rw [List.length_append, hhead]
    omega
  have hfit1 : decVal p1 < 2 ^ 63 := by omega
  have hfit2 : decVal p2 < 2 ^ 63 := by omega
  have g1 : (L ++ [p1, p2]).getD ((L ++ [p1, p2]).length - 2) [] = p1 := by
    rw [List.getD_append_right _ _ _ _ (by simp)]
    simp
  have g2 : (L ++ [p1, p2]).getD ((L ++ [p1, p2]).length - 1) [] = p2 := by
    rw [List.getD_append_right _ _ _ _ (by simp)]
    simp
  have hlen2 : ¬ (L ++ [p1, p2]).length < 2 := by simp
  have hread : ({ st with world := (st.world.WriteString wr (ascii "PASV" ++ CRLF)).2.Flush wr } :
      State).world.reads.headD (.fail 0) = .line (head ++ (pre ++ 40 ::
        ((h1 ++ 44 :: (h2 ++ 44 :: (h3 ++ 44 :: (h4 ++ 44 :: (p1 ++ 44 :: p2))))) ++
          41 :: (post ++ [10])))) := hline
  unfold Pasv
  rw [send_ok _ st wr hwr hwrite]
  simp only []
  rw [receive_line ({ st with world := (st.world.WriteString wr (ascii "PASV" ++ CRLF)).2.Flush wr } :
    State) rd _ hrd hread hlen]
  simp only [List.drop_left' hhead, hg, hL2]
  rw [if_neg hlen2]
  simp only [g1, g2, Atoi_decimal p1 hp1 hfit1, Atoi_decimal p2 hp2 hfit2, Outcome.val?,
    Outcome.state, wrapInt_port _ _ hfit, true_and]

/-- Witness for `Pasv_records_port`: the replies of the specification,
`(10,20,30,40,117,231)` giving 30183 and `(127,0,0,1,200,13)` giving 51213. -/
theorem Pasv_records_port_witness :
    ((Pasv (State.connected []
        [.line (ascii "227 Entering Passive Mode (10,20,30,40,117,231)\n")])).val? = some none ∧
      (Pasv (State.connected []
        [.line (ascii "227 Entering Passive Mode (10,20,30,40,117,231)\n")])).state.ftp.passPort
        = 30183) ∧
    ((Pasv (State.connected []
        [.line (ascii "227 Entering Passive Mode (127,0,0,1,200,13)\n")])).val? = some none ∧
      (Pasv (State.connected []
        [.line (ascii "227 Entering Passive Mode (127,0,0,1,200,13)\n")])).state.ftp.passPort
        = 51213) :=
  ⟨Pasv_records_port
      (State.connected [] [.line (ascii "227 Entering Passive Mode (10,20,30,40,117,231)\n")])
      0 0 (ascii "227 ") (ascii "Entering Passive Mode ") []
      (ascii "10") (ascii "20") (ascii "30") (ascii "40") (ascii "117") (ascii "231")
      rfl rfl rfl rfl (by decide) (by decide) rfl rfl rfl rfl rfl rfl (by decide) rfl,
   Pasv_records_port
      (State.connected [] [.line (ascii "227 Entering Passive Mode (127,0,0,1,200,13)\n")])
      0 0 (ascii "227 ") (ascii "Entering Passive Mode ") []
      (ascii "127") (ascii "0") (ascii "0") (ascii "1") (ascii "200") (ascii "13")
      rfl rfl rfl rfl (by decide) (by decide) rfl rfl rfl rfl rfl rfl (by decide) rfl⟩

/-- C3 (counterexample): with a further `)` after the tuple the greedy group
runs to that last `)`, so the last piece is not a number and the port recorded
for `(10,20,30,40,117,231) (ok)` is `117 * 256 + 0`; and a field too large for
a 64-bit `int` is clamped and the shift wraps. -/
theorem Pasv_port_not_always_tuple :
    ((Pasv (State.connected []
        [.line (ascii "227 Entering Passive Mode (10,20,30,40,117,231) (ok)\n")])).val? = some none ∧
      (Pasv (State.connected []
        [.line (ascii "227 Entering Passive Mode (10,20,30,40,117,231) (ok)\n")])).state.ftp.passPort
        = 29952 ∧
      (Pasv (State.connected []
        [.line (ascii "227 Entering Passive Mode (10,20,30,40,117,231) (ok)\n")])).state.ftp.passPort
        ≠ 117 * 256 + 231) ∧
    ((Pasv (State.connected []
        [.line (ascii "227 Entering Passive Mode (10,20,30,40,99999999999999999999,231)\n")])).val?
        = some none ∧
      (Pasv (State.connected []
        [.line (ascii "227 Entering Passive Mode (10,20,30,40,99999999999999999999,231)\n")])).state.ftp.passPort
        = -25) := by
  decide

/-- C4 (code at the failing inputs): on a PASV reply without a parenthesised
group, and on one whose group has a single field, `Pasv` panics on an index
out of range instead of returning an error. -/
theorem Pasv_malformed_panics :
    (Pasv (State.connected [] [.line (ascii "227 Entering Passive Mode\n")])).val? = none ∧
      (Pasv (State.connected [] [.line (ascii "227 Entering Passive Mode (5)\n")])).val? = none := by
  decide

/-! ## The session engine -/

theorem written_append (a b : List Event) : written (a ++ b) = written a ++ written b := by
  induction a with
  | nil => rfl
  | cons ev t ih => cases ev <;> simp [written, ih]

theorem closeCount_append (a b : List Event) :
    closeCount (a ++ b) = closeCount a + closeCount b := by
  simp [closeCount, List.filter_append]

/-- What `send` does to the session and to the trace, whatever its result. -/
theorem send_effects (cmd : Str) (st : State) :
    (send cmd st).2.ftp = st.ftp ∧
      written (send cmd st).2.world.trace =
        written st.world.trace ++ (if st.ftp.writer.isSome then [cmd ++ CRLF] else []) ∧
      closeCount (send cmd st).2.world.trace = closeCount st.world.trace := by
  unfold send
  cases hw : st.ftp.writer with
  | none => simp
  | some wr =>
    cases hres : st.world.writes.headD none with
    | none =>
      simp only [World.WriteString, World.Flush, hres, written_append, closeCount_append]
      simp [written, closeCount]
    | some e =>
      simp only [World.WriteString, hres, written_append, closeCount_append]
      simp [written, closeCount]

/-- What `receive` does to the session and to the trace, whatever its
outcome. -/
theorem receive_effects (st : State) :
    (receive st).state.ftp = st.ftp ∧
      written (receive st).state.world.trace = written st.world.trace ∧
      closeCount (receive st).state.world.trace = closeCount st.world.trace := by
  unfold receive
  cases hr : st.ftp.reader with
  | none => simp [Outcome.state]
  | some rd =>
    cases hres : st.world.reads.headD (.fail 0) with
    | fail e =>
      simp only [World.ReadString, hres, Outcome.state, written_append, closeCount_append]
      simp [written, closeCount]
    | line reply =>
      simp only [World.ReadString, hres]
      split
      · simp only [Outcome.state, written_append, closeCount_append]
        simp [written, closeCount]
      · split
        · simp only [Outcome.state, written_append, closeCount_append]
          simp [written, closeCount]
        · cases st.ftp.debug <;>
            simp only [Outcome.state, World.Printf, Bool.false_eq_true, if_false, if_true,
              written_append, closeCount_append] <;>
            simp [written, closeCount]

/-- What `user` does to the session and to the writes, whatever its outcome:
the session is untouched and at most the `USER` line is written. -/
theorem user_effects (usr : Str) (st : State) :
    (user usr st).state.ftp = st.ftp ∧
      written (user usr st).state.world.trace =
        written st.world.trace ++
          (if st.ftp.writer.isSome then
            [ascii "USER " ++ (if usr.length = 0 then ascii "anonymous" else usr) ++ CRLF]
          else []) := by
  have hs := send_effects (ascii "USER " ++ (if usr.length = 0 then ascii "anonymous" else usr)) st
  unfold user
  simp only []
  rcases hsend : send (ascii "USER " ++ (if usr.length = 0 then ascii "anonymous" else usr)) st
    with ⟨_ | e, st1⟩
  · rw [hsend] at hs
    have hr := receive_effects st1
    simp only []
    rcases hrecv : receive st1 with ⟨⟨m, _ | e⟩, st2⟩ | st2 <;>
      rw [hrecv] at hr <;>
      simp only [Outcome.state] at hr ⊢ <;>
      exact ⟨hr.1.trans hs.1, hr.2.1.trans hs.2.1⟩
  · rw [hsend] at hs
    exact ⟨hs.1, hs.2.1⟩

/-- What the body of `Quit` does, whatever its outcome: the session is
untouched and no connection is closed. -/
theorem QuitBody_effects (st : State) :
    (QuitBody st).state.ftp = st.ftp ∧
      closeCount (QuitBody st).state.world.trace = closeCount st.world.trace := by
  have hs := send_effects (ascii "QUIT") st
  unfold QuitBody
  rcases hsend : send (ascii "QUIT") st with ⟨_ | e, st1⟩
  · rw [hsend] at hs
    have hr := receive_effects st1
    simp only []
    rcases hrecv : receive st1 with ⟨⟨m, _ | e⟩, st2⟩ | st2 <;>
      rw [hrecv] at hr <;>
      simp only [Outcome.state] at hr ⊢ <;>
      exact ⟨hr.1.trans hs.1, hr.2.2.trans hs.2.2⟩
  · rw [hsend] at hs
    exact ⟨hs.1, hs.2.2⟩

/-- A `user` round trip whose write succeeds and whose reply has at least
four bytes: what it returns and what it leaves. -/
theorem user_ok (usr : Str) (st : State) (wr rd : Nat) (r : Str)
    (hwr : st.ftp.writer = some wr) (hrd : st.ftp.reader = some rd)
    (hw : st.world.writes.headD none = none)
    (hr : st.world.reads.headD (.fail 0) = .line r) (hl : 4 ≤ r.length) :
    (user usr st).val? = some none ∧ (user usr st).state.ftp = st.ftp ∧
      (user usr st).state.world.trace =
        st.world.trace ++
          [.write wr (ascii "USER " ++ (if usr.length = 0 then ascii "anonymous" else usr) ++ CRLF),
            .flush wr, .read rd] ∧
      (user usr st).state.world.writes = st.world.writes.tail ∧
      (user usr st).state.world.reads = st.world.reads.tail := by
  have hread : ({ st with world := (st.world.WriteString wr
      (ascii "USER " ++ (if usr.length = 0 then ascii "anonymous" else usr) ++ CRLF)).2.Flush wr } :
      State).world.reads.headD (.fail 0) = .line r := hr
  unfold user
  simp only []
  rw [send_ok _ st wr hwr hw]
  simp only []
  rw [receive_line ({ st with world := (st.world.WriteString wr
      (ascii "USER " ++ (if usr.length = 0 then ascii "anonymous" else usr) ++ CRLF)).2.Flush wr } :
      State) rd r hrd hread hl]
  cases st.ftp.debug <;>
    simp [Outcome.val?, Outcome.state, World.WriteString, World.Flush, World.ReadString,
      World.Printf]

/-- A `pass` round trip whose write succeeds and whose reply has at least
four bytes: what it returns and what it leaves. -/
theorem pass_ok (password : Str) (st : State) (wr rd : Nat) (r : Str)
    (hwr : st.ftp.writer = some wr) (hrd : st.ftp.reader = some rd)
    (hw : st.world.writes.headD none = none)
    (hr : st.world.reads.headD (.fail 0) = .line r) (hl : 4 ≤ r.length) :
    (pass password st).val? = some none ∧ (pass password st).state.ftp = st.ftp ∧
      (pass password st).state.world.trace =
        st.world.trace ++
          [.write wr (ascii "PASS " ++ (if password.length = 0 then ascii "" else password) ++ CRLF),
            .flush wr, .read rd] := by
  have hread : ({ st with world := (st.world.WriteString wr
      (ascii "PASS " ++ (if password.length = 0 then ascii "" else password) ++ CRLF)).2.Flush wr } :
      State).world.reads.headD (.fail 0) = .line r := hr
  unfold pass
  simp only []
  rw [send_ok _ st wr hwr hw]
  simp only []
  rw [receive_line ({ st with world := (st.world.WriteString wr
      (ascii "PASS " ++ (if password.length = 0 then ascii "" else password) ++ CRLF)).2.Flush wr } :
      State) rd r hrd hread hl]
  cases st.ftp.debug <;>
    simp [Outcome.val?, Outcome.state, World.WriteString, World.Flush, World.ReadString,
      World.Printf]

/-- C5: on a session with a writer and a reader, when both writes succeed and
both replies are lines of at least four bytes, `Login("", "")` returns no
error, marks the session authenticated and does exactly this, in order:
writes `USER anonymous` CR LF, flushes, reads one reply, writes `PASS ` CR LF,
flushes, reads one reply.  And for every user and password on every session,
when the `USER` round trip returns an error, `Login` returns that error, ends
in the state the `USER` round trip left, leaves `isLogged` as it was, and has
written nothing but (at most) the `USER` line. -/
theorem Login_sequence (st : State) (wr rd : Nat) (r1 r2 : Str)
    (st' : State) (usr password : Str) (e : Err)
    (hwr : st.ftp.writer = some wr) (hrd : st.ftp.reader = some rd)
    (hw1 : st.world.writes.headD none = none)
    (hw2 : st.world.writes.tail.headD none = none)
    (hr1 : st.world.reads.headD (.fail 0) = .line r1) (hl1 : 4 ≤ r1.length)
    (hr2 : st.world.reads.tail.headD (.fail 0) = .line r2) (hl2 : 4 ≤ r2.length)
    (hfail : (user usr st').val? = some (some e)) :
    ((Login [] [] st).val? = some none ∧
      (Login [] [] st).state.world.trace =
        st.world.trace ++
          [.write wr (ascii "USER anonymous" ++ CRLF), .flush wr, .read rd,
            .write wr (ascii "PASS " ++ CRLF), .flush wr, .read rd] ∧
      (Login [] [] st).state.ftp.isLogged = true) ∧
    ((Login usr password st').val? = some (some e) ∧
      (Login usr password st').state = (user usr st').state ∧
      (Login usr password st').state.ftp.isLogged = st'.ftp.isLogged ∧
      written (Login usr password st').state.world.trace =
        written st'.world.trace ++
          (if st'.ftp.writer.isSome then
            [ascii "USER " ++ (if usr.length = 0 then ascii "anonymous" else usr) ++ CRLF]
          else [])) := by
  constructor
  · obtain ⟨u1, u2, u3, u4, u5⟩ := user_ok [] st wr rd r1 hwr hrd hw1 hr1 hl1
    unfold Login
    cases hu : user [] st with
    | panic s1 => rw [hu] at u1; exact absurd u1 (by simp [Outcome.val?])
    | ret v s1 =>
      rw [hu] at u1 u2 u3 u4 u5
      simp only [Outcome.val?, Outcome.state, Option.some.injEq] at u1 u2 u3 u4 u5
      subst u1
      simp only []
      obtain ⟨p1, p2, p3⟩ := pass_ok [] s1 wr rd r2 (by rw [u2]; exact hwr) (by rw [u2]; exact hrd)
        (by rw [u4]; exact hw2) (by rw [u5]; exact hr2) hl2
      cases hp : pass [] s1 with
      | panic s2 => rw [hp] at p1; exact absurd p1 (by simp [Outcome.val?])
      | ret v2 s2 =>
        rw [hp] at p1 p2 p3
        simp only [Outcome.val?, Outcome.state, Option.some.injEq] at p1 p2 p3
        subst p1
        simp only [Outcome.val?, Outcome.state, p3, u3, List.append_assoc, true_and, and_true]
        rfl
  · have hu := user_effects usr st'
    unfold Login
    cases hus : user usr st' with
    | panic s1 => rw [hus] at hfail; exact absurd hfail (by simp [Outcome.val?])
    | ret v s1 =>
      rw [hus] at hfail hu
      simp only [Outcome.val?, Option.some.injEq] at hfail
      subst hfail
      simp only [Outcome.state] at hu
      simp only [Outcome.val?, Outcome.state, hu.1, hu.2, true_and]

/-- Witness for `Login_sequence`: an anonymous login answered by two replies,
and a login whose `USER` reply cannot be read. -/
theorem Login_sequence_witness :
    ((Login [] [] (State.connected [] [.line (ascii "331 Password\n"),
        .line (ascii "230 Logged in\n")])).val? = some none ∧
      (Login [] [] (State.connected [] [.line (ascii "331 Password\n"),
        .line (ascii "230 Logged in\n")])).state.world.trace =
        (State.connected [] [.line (ascii "331 Password\n"),
          .line (ascii "230 Logged in\n")]).world.trace ++
          [.write 0 (ascii "USER anonymous" ++ CRLF), .flush 0, .read 0,
            .write 0 (ascii "PASS " ++ CRLF), .flush 0, .read 0] ∧
      (Login [] [] (State.connected [] [.line (ascii "331 Password\n"),
        .line (ascii "230 Logged in\n")])).state.ftp.isLogged = true) ∧
    ((Login (ascii "bob") (ascii "secret") (State.connected [] [.fail 7])).val? =
        some (some (.io 7)) ∧
      (Login (ascii "bob") (ascii "secret") (State.connected [] [.fail 7])).state =
        (user (ascii "bob") (State.connected [] [.fail 7])).state ∧
      (Login (ascii "bob") (ascii "secret") (State.connected [] [.fail 7])).state.ftp.isLogged =
        (State.connected [] [.fail 7]).ftp.isLogged ∧
      written (Login (ascii "bob") (ascii "secret")
          (State.connected [] [.fail 7])).state.world.trace =
        written (State.connected [] [.fail 7]).world.trace ++
          (if (State.connected [] [.fail 7]).ftp.writer.isSome then
            [ascii "USER " ++ (if (ascii "bob").length = 0 then ascii "anonymous" else ascii "bob")
              ++ CRLF]
          else [])) :=
  Login_sequence
    (State.connected [] [.line (ascii "331 Password\n"), .line (ascii "230 Logged in\n")])
    0 0 (ascii "331 Password\n") (ascii "230 Logged in\n")
    (State.connected [] [.fail 7]) (ascii "bob") (ascii "secret") (.io 7)
    rfl rfl rfl rfl rfl (by decide) rfl (by decide) (by decide)

/-- C6: whatever the session state and however `Quit` ends (no error, the
write error, the read error after the `QUIT` line was written, or a panic in
its body), the session holds no connection afterwards, and if it held one
then the last call made is the close of that connection, the only close that
`Quit` performs. -/
theorem Quit_closes_connection (st : State) :
    (Quit st).state.ftp.conn = none ∧
      (Quit st).state.world.trace =
        (QuitBody st).state.world.trace ++ (st.ftp.conn.map Event.close).toList ∧
      closeCount (Quit st).state.world.trace =
        closeCount st.world.trace + (if st.ftp.conn.isSome then 1 else 0) := by
  obtain ⟨hf, hc⟩ := QuitBody_effects st
  have key : ∀ s1 : State, s1.ftp = st.ftp → closeCount s1.world.trace = closeCount st.world.trace →
      (Close s1).ftp.conn = none ∧
        (Close s1).world.trace = s1.world.trace ++ (st.ftp.conn.map Event.close).toList ∧
        closeCount (Close s1).world.trace =
          closeCount st.world.trace + (if st.ftp.conn.isSome then 1 else 0) := by
    intro s1 h1 h2
    unfold Close
    rw [h1]
    cases hconn : st.ftp.conn with
    | none => simp [h1, hconn, h2]
    | some c =>
      simp only [World.Close, closeCount_append, h2]
      simp [closeCount]
  unfold Quit
  cases hq : QuitBody st with
  | ret err s1 =>
    rw [hq] at hf hc
    exact key s1 hf hc
  | panic s1 =>
    rw [hq] at hf hc
    exact key s1 hf hc

/-- C9: `Close` is idempotent: a second `Close` changes nothing, and the two
calls together close the underlying connection once if one was held and not
at all otherwise.  (`Close` returns no error and has no panicking step.) -/
theorem Close_idempotent (st : State) :
    Close (Close st) = Close st ∧
      closeCount (Close (Close st)).world.trace =
        closeCount st.world.trace + (if st.ftp.conn.isSome then 1 else 0) := by
  have h : Close (Close st) = Close st := by
    unfold Close
    cases hconn : st.ftp.conn with
    | none => simp [hconn]
    | some c => simp
  refine ⟨h, ?_⟩
  rw [h]
  unfold Close
  cases hconn : st.ftp.conn with
  | none => simp
  | some c => simp [World.Close, closeCount_append, closeCount]

/-- C7 (code at the failing input): `Cwd("/debian")` on a connected session
hands `WriteString` the bytes `CWD /debian` followed by two CR LF, not one. -/
theorem Cwd_writes_two_CRLF :
    written (Cwd (ascii "/debian")
        (State.connected [] [.line (ascii "250 Okay\n")])).state.world.trace =
        [ascii "CWD /debian\r\n\r\n"] ∧
      written (Cwd (ascii "/debian")
        (State.connected [] [.line (ascii "250 Okay\n")])).state.world.trace ≠
        [ascii "CWD /debian\r\n"] := by
  decide

/-- C8 (code at the failing input): a session that was connected and then
released by `Close` holds no connection but still has its writer, so `Pwd`
passes the guard of `send`, writes `PWD` CR LF and returns the read error of
the closed connection, not the no-connection error. -/
theorem Pwd_after_Close_still_writes :
    (Close (Connect (ascii "ftp.debian.org:21")
        (State.fresh (World.init [none] [] [.line (ascii "220 Welcome\n"), .fail 1]))).state).ftp.conn
        = none ∧
      (Pwd (Close (Connect (ascii "ftp.debian.org:21")
        (State.fresh (World.init [none] [] [.line (ascii "220 Welcome\n"), .fail 1]))).state)).val?
        = some (some (.io 1)) ∧
      (Pwd (Close (Connect (ascii "ftp.debian.org:21")
        (State.fresh (World.init [none] [] [.line (ascii "220 Welcome\n"), .fail 1]))).state)).val?
        ≠ some (some .noConnection) ∧
      (Pwd (Close (Connect (ascii "ftp.debian.org:21")
        (State.fresh (World.init [none] [] [.line (ascii "220 Welcome\n"),
          .fail 1]))).state)).state.world.trace =
        [.dial (ascii "ftp.debian.org:21"), .read 0, .close 0,
          .write 0 (ascii "PWD\r\n"), .flush 0, .read 0] := by
  decide

end Cable
